import Mathlib

/-!
Verification of the Chef Ann commodity-planning Cloud Function
(`functions/main.py`) against its natural-language specification.

The Python module is shallowly embedded below: JSON documents become the
inductive type `J`; Python dictionaries are association lists with dict
semantics (first occurrence wins on lookup, in-place replace on update);
the Gemini chunk stream becomes a list of `Chunk` values followed by an
optional raised exception; the SSE generator becomes a pure function from
that upstream description to the list of emitted events.
-/

namespace ChefAnn

/-- A JSON value: the shape of the reference documents and request bodies
handled by the service.  A number is an exact decimal `mant × 10⁻ᵉˣᵖ`
(every numeric literal in the source, e.g. `3.25`, is such a decimal;
integer literals carry `exp = 0`, float literals a positive `exp`, which
also preserves Python's distinct rendering of `2` and `2.0`). -/
inductive J where
  | null : J
  | bool : Bool → J
  | num : Int → Nat → J
  | str : String → J
  | arr : List J → J
  | obj : List (String × J) → J

/-- First-match association-list lookup, the model of Python `dict`
indexing (well-formed documents have distinct keys). -/
def jLookup : List (String × J) → String → Option J
  | [], _ => none
  | kv :: rest, k => if kv.1 = k then some kv.2 else jLookup rest k

/-- Python `d.get(k)` on a mapping; `none` on non-mappings (records handled
by the service are mappings). -/
def jGet (j : J) (k : String) : Option J :=
  match j with
  | .obj kvs => jLookup kvs k
  | _ => none

/-- Python `d.get(k, default)`: the stored value if the key is present
(even if the stored value is null), else the default. -/
def jGetD (j : J) (k : String) (d : J) : J := (jGet j k).getD d

/-- Python `k in d` for a mapping's key list. -/
def hasKey (kvs : List (String × J)) (k : String) : Bool :=
  kvs.any (fun kv => kv.1 = k)

/-- Python `d[k] = v`: replace the first binding of `k`, or append a new
binding (insertion order preserved, as for a Python dict). -/
def setKey : List (String × J) → String → J → List (String × J)
  | [], k, v => [(k, v)]
  | kv :: rest, k, v =>
    if kv.1 = k then (k, v) :: rest else kv :: setKey rest k v

/-- `d[k] = v` lifted to `J`; a no-op on non-mappings. -/
def jSet (j : J) (k : String) (v : J) : J :=
  match j with
  | .obj kvs => .obj (setKey kvs k v)
  | _ => j

/-- Whether a `J` value is a mapping (a Python dict). -/
def isObj : J → Bool
  | .obj _ => true
  | _ => false

/-- The single-quote character, used by Python `repr` of strings. -/
def pyQuote : String := String.singleton (Char.ofNat 39)

/-- Python's rendering of the decimal number `mant × 10⁻ᵉˣᵖ`: integers
render without a fractional part; floats strip trailing fractional
zeros but keep at least one fractional digit (`str(2.10) = "2.1"`,
`str(2.0) = "2.0"`). -/
def decStr (m : Int) (e : Nat) : String :=
  if e = 0 then toString m
  else
    let sign := if m < 0 then "-" else ""
    let digits := toString m.natAbs
    let digits :=
      if digits.length ≤ e then
        String.mk (List.replicate (e + 1 - digits.length) '0') ++ digits
      else digits
    let ip := digits.dropRight e
    let fp := String.mk ((digits.takeRight e).toList.reverse.dropWhile (· = '0')).reverse
    sign ++ ip ++ "." ++ (if fp = "" then "0" else fp)

mutual

/-- Python `str(x)` on a JSON value (scalars exactly; containers via the
`repr` of their elements, as Python does). -/
def pyStr : J → String
  | .null => "None"
  | .bool b => if b then "True" else "False"
  | .num m e => decStr m e
  | .str s => s
  | .arr xs => "[" ++ pyReprItems xs ++ "]"
  | .obj kvs => "\x7b" ++ pyReprKVs kvs ++ "\x7d"

/-- Python `repr(x)` on a JSON value (strings pick up single quotes). -/
def pyRepr : J → String
  | .null => "None"
  | .bool b => if b then "True" else "False"
  | .num m e => decStr m e
  | .str s => pyQuote ++ s ++ pyQuote
  | .arr xs => "[" ++ pyReprItems xs ++ "]"
  | .obj kvs => "\x7b" ++ pyReprKVs kvs ++ "\x7d"

/-- Comma-separated `repr` of list elements. -/
def pyReprItems : List J → String
  | [] => ""
  | [x] => pyRepr x
  | x :: xs => pyRepr x ++ ", " ++ pyReprItems xs

/-- Comma-separated `repr` of dict entries. -/
def pyReprKVs : List (String × J) → String
  | [] => ""
  | [kv] => pyQuote ++ kv.1 ++ pyQuote ++ ": " ++ pyRepr kv.2
  | kv :: kvs => pyQuote ++ kv.1 ++ pyQuote ++ ": " ++ pyRepr kv.2 ++ ", " ++ pyReprKVs kvs

end

/-! ## Streaming relay (`stream_gemini`) -/

/-- One code-execution result as relayed by the service: the sandbox
output plus the outcome tag already rendered as a string (the source
applies `str(...)` to the outcome enum). -/
structure CodeExecResult where
  output : String
  outcome : String
deriving DecidableEq, Repr

/-- One part of an upstream chunk.  `text` is falsy in the source both
when absent and when empty; the code and result payloads are objects,
truthy exactly when present. -/
structure Part where
  text : Option String := none
  executable_code : Option String := none
  code_execution_result : Option CodeExecResult := none
deriving DecidableEq, Repr

/-- The content of an upstream candidate. -/
structure Content where
  parts : List Part
deriving DecidableEq, Repr

/-- One candidate of an upstream chunk. -/
structure Candidate where
  content : Option Content
deriving DecidableEq, Repr

/-- One unit of the upstream model's response stream. -/
structure Chunk where
  candidates : List Candidate
deriving DecidableEq, Repr

/-- The running aggregate `result = {'text': '', 'code_blocks': [], 'code_results': []}`. -/
structure Agg where
  text : String
  code_blocks : List String
  code_results : List CodeExecResult
deriving DecidableEq, Repr

/-- One downstream SSE event `{"type": ..., "data": ...}`, by type tag. -/
inductive Event where
  | text (s : String)
  | code (s : String)
  | result (r : CodeExecResult)
  | done (agg : Agg)
  | error (msg : String)
deriving DecidableEq, Repr

/-- Processing of a single part: for each payload kind present (text,
then executable code, then execution result, in the source's fixed
order) update the aggregate and emit the corresponding event.  An empty
text fragment is falsy in Python and emits nothing. -/
def procPart (a : Agg) (p : Part) : Agg × List Event :=
  let r1 :=
    match p.text with
    | some t =>
      if t ≠ "" then ({ a with text := a.text ++ t }, [Event.text t]) else (a, [])
    | none => (a, [])
  let r2 :=
    match p.executable_code with
    | some c => ({ r1.1 with code_blocks := r1.1.code_blocks ++ [c] }, [Event.code c])
    | none => (r1.1, [])
  let r3 :=
    match p.code_execution_result with
    | some r => ({ r2.1 with code_results := r2.1.code_results ++ [r] }, [Event.result r])
    | none => (r2.1, [])
  (r3.1, r1.2 ++ r2.2 ++ r3.2)

/-- The inner `for part in ...parts` loop. -/
def procParts (a : Agg) : List Part → Agg × List Event
  | [] => (a, [])
  | p :: ps =>
    let r := procPart a p
    let rs := procParts r.1 ps
    (rs.1, r.2 ++ rs.2)

/-- Processing of one chunk: a chunk with no candidate, no content or no
parts is silently skipped; otherwise the first candidate's parts are
processed in order. -/
def procChunk (a : Agg) (c : Chunk) : Agg × List Event :=
  match c.candidates with
  | [] => (a, [])
  | cand :: _ =>
    match cand.content with
    | none => (a, [])
    | some content =>
      match content.parts with
      | [] => (a, [])
      | ps => procParts a ps

/-- The `for chunk in ...generate_content_stream(...)` loop. -/
def procChunks (a : Agg) : List Chunk → Agg × List Event
  | [] => (a, [])
  | c :: cs =>
    let r := procChunk a c
    let rs := procChunks r.1 cs
    (rs.1, r.2 ++ rs.2)

/-- `stream_gemini`, as a function of the upstream stream's behaviour:
`chunks` are the chunks the upstream iterator delivers and `err` is
`some msg` when the iteration then raises an exception with message
`msg` (and `none` when it ends normally).  On normal exhaustion the
relay appends exactly one `done` event carrying the aggregate; on a
raise it appends exactly one `error` event instead. -/
def stream_gemini (chunks : List Chunk) (err : Option String) : List Event :=
  let r := procChunks ⟨"", [], []⟩ chunks
  match err with
  | none => r.2 ++ [Event.done r.1]
  | some msg => r.2 ++ [Event.error msg]

/-! ## Commodity lookup: flattening, enrichment, cost defaults -/

/-- Whether a mapping node is a commodity record, i.e. carries the
`wbscm_id` identifier field. -/
def isRecord : J → Bool
  | .obj kvs => hasKey kvs "wbscm_id"
  | _ => false

mutual

/-- `extract_all_commodities` from the source: a list is assumed to
already be a list of commodities and its elements are appended as they
are; a mapping that carries `wbscm_id` is itself a record; any other
mapping is recursed into value by value; scalars contribute nothing. -/
def extract_all_commodities : J → List J
  | .arr xs => xs
  | .obj kvs =>
    if hasKey kvs "wbscm_id" then [J.obj kvs] else extractVals kvs
  | _ => []

/-- Recursion of `extract_all_commodities` over a mapping's values. -/
def extractVals : List (String × J) → List J
  | [] => []
  | kv :: rest => extract_all_commodities kv.2 ++ extractVals rest

end

mutual

/-- Modelled from the spec: the flatten contract in its own words — "if
the current node is a sequence, its elements are flattened and
concatenated in order; if it is a mapping, and the mapping itself looks
like a record (possesses the unique-identifier field), it is appended
as a single record; otherwise every value in the mapping is flattened
and results concatenated in the mapping's iteration order". -/
def flattenSpec : J → List J
  | .arr xs => flattenSpecList xs
  | .obj kvs =>
    if hasKey kvs "wbscm_id" then [J.obj kvs] else flattenSpecVals kvs
  | _ => []

/-- Spec-worded flattening of a sequence's elements, concatenated in order. -/
def flattenSpecList : List J → List J
  | [] => []
  | x :: xs => flattenSpec x ++ flattenSpecList xs

/-- Spec-worded flattening of a mapping's values, concatenated in order. -/
def flattenSpecVals : List (String × J) → List J
  | [] => []
  | kv :: rest => flattenSpec kv.2 ++ flattenSpecVals rest

end

mutual

/-- Well-formedness under which the source's non-recursive sequence case
is harmless: every sequence reachable without passing through a record
holds leaf records only. -/
def seqsHoldRecords : J → Bool
  | .arr xs => xs.all isRecord
  | .obj kvs =>
    if hasKey kvs "wbscm_id" then true else seqsHoldRecordsVals kvs
  | _ => true

/-- `seqsHoldRecords` over a mapping's values. -/
def seqsHoldRecordsVals : List (String × J) → Bool
  | [] => true
  | kv :: rest => seqsHoldRecords kv.2 && seqsHoldRecordsVals rest

end

/-- On a record, the spec-worded flatten yields that single record. -/
theorem flattenSpec_of_isRecord (x : J) (h : isRecord x = true) :
    flattenSpec x = [x] := by
  cases x <;> simp [isRecord] at h
  simp [flattenSpec, h]

/-- On a list of records, the spec-worded flatten is the identity. -/
theorem flattenSpecList_of_all_isRecord (xs : List J) (h : xs.all isRecord = true) :
    flattenSpecList xs = xs := by
  induction xs with
  | nil => rfl
  | cons x xs ih =>
    simp only [List.all_cons, Bool.and_eq_true] at h
    simp [flattenSpecList, flattenSpec_of_isRecord x h.1, ih h.2]

mutual

/-- Under `seqsHoldRecords`, the source flatten agrees with the
spec-worded flatten. -/
theorem extract_eq_flattenSpec (j : J) (h : seqsHoldRecords j = true) :
    extract_all_commodities j = flattenSpec j :=
  match j with
  | .null => rfl
  | .bool _ => rfl
  | .num _ _ => rfl
  | .str _ => rfl
  | .arr xs => by
    simp only [seqsHoldRecords] at h
    simp [extract_all_commodities, flattenSpec, flattenSpecList_of_all_isRecord xs h]
  | .obj kvs => by
    by_cases hk : hasKey kvs "wbscm_id" = true
    · simp [extract_all_commodities, flattenSpec, hk]
    · simp only [seqsHoldRecords, hk, if_false] at h
      simp [extract_all_commodities, flattenSpec, hk,
        extractVals_eq_flattenSpecVals kvs h]

/-- `extract_eq_flattenSpec` over a mapping's values. -/
theorem extractVals_eq_flattenSpecVals (kvs : List (String × J))
    (h : seqsHoldRecordsVals kvs = true) :
    extractVals kvs = flattenSpecVals kvs :=
  match kvs with
  | [] => rfl
  | kv :: rest => by
    simp only [seqsHoldRecordsVals, Bool.and_eq_true] at h
    simp [extractVals, flattenSpecVals,
      extract_eq_flattenSpec kv.2 h.1, extractVals_eq_flattenSpecVals rest h.2]

end

mutual

/-- Under `seqsHoldRecords`, every node the source flatten returns is a
record. -/
theorem extract_all_isRecord (j : J) (h : seqsHoldRecords j = true) :
    (extract_all_commodities j).all isRecord = true :=
  match j with
  | .null => rfl
  | .bool _ => rfl
  | .num _ _ => rfl
  | .str _ => rfl
  | .arr xs => by
    simp only [seqsHoldRecords] at h
    simpa [extract_all_commodities] using h
  | .obj kvs => by
    by_cases hk : hasKey kvs "wbscm_id" = true
    · simp [extract_all_commodities, hk, isRecord]
    · simp only [seqsHoldRecords, hk, if_false] at h
      simpa [extract_all_commodities, hk] using extractVals_all_isRecord kvs h

/-- `extract_all_isRecord` over a mapping's values. -/
theorem extractVals_all_isRecord (kvs : List (String × J))
    (h : seqsHoldRecordsVals kvs = true) :
    (extractVals kvs).all isRecord = true :=
  match kvs with
  | [] => rfl
  | kv :: rest => by
    simp only [seqsHoldRecordsVals, Bool.and_eq_true] at h
    simp [extractVals, List.all_append,
      extract_all_isRecord kv.2 h.1, extractVals_all_isRecord rest h.2]

end

example :
    extract_all_commodities (J.obj [("k", J.arr [J.arr [J.obj [("wbscm_id", J.num 1 0)]]])]) =
      [J.arr [J.obj [("wbscm_id", J.num 1 0)]]] := by rfl

/-! ## Enrichment (`enrich_commodity`) -/

/-- The identifier of a record, as the source computes it:
`str(x.get('wbscm_id', ''))`. -/
def widOf (x : J) : String := pyStr (jGetD x "wbscm_id" (J.str ""))

/-- The match predicate of the source's `next(...)` searches:
`str(c.get('wbscm_id', '')) == wbscm_id`. -/
def matchesId (wid : String) (c : J) : Bool := widOf c = wid

/-- The fixed list of fields `enrich_commodity` merges from the
comprehensive record. -/
def ENRICH_FIELDS : List String :=
  ["case_weight_lbs", "servings_per_case", "serving_size_oz",
   "cn_credit_oz", "cn_credit_category", "pack_size_description", "source_url"]

/-- One step of the merge loop: `if field in match and match[field] is not
None: enriched[field] = match[field]`. -/
def enrichStep (m : J) (enr : J) (field : String) : J :=
  match jGet m field with
  | some J.null => enr
  | some v => jSet enr field v
  | none => enr

/-- `enrich_commodity`: look the commodity's identifier up in the
comprehensive product list; on a match, copy each of the seven listed
fields that the match carries with a non-null value; otherwise return
the commodity unchanged. -/
def enrich_commodity (comprehensive : List J) (commodity : J) : J :=
  match comprehensive.find? (matchesId (widOf commodity)) with
  | some m => ENRICH_FIELDS.foldl (enrichStep m) commodity
  | none => commodity

/-- Whether the comprehensive record carries field `f` with a non-null
value (the condition under which `enrich_commodity` copies it). -/
def goodField (m : J) (f : String) : Bool :=
  match jGet m f with
  | some J.null => false
  | some _ => true
  | none => false

theorem jLookup_setKey_same (kvs : List (String × J)) (k : String) (v : J) :
    jLookup (setKey kvs k v) k = some v := by
  induction kvs with
  | nil => simp [setKey, jLookup]
  | cons kv rest ih =>
    by_cases h : kv.1 = k
    · simp [setKey, h, jLookup]
    · simp [setKey, h, jLookup, ih]

theorem jLookup_setKey_other (kvs : List (String × J)) (k k' : String) (v : J)
    (h : k' ≠ k) : jLookup (setKey kvs k v) k' = jLookup kvs k' := by
  induction kvs with
  | nil => simp [setKey, jLookup, Ne.symm h]
  | cons kv rest ih =>
    by_cases hh : kv.1 = k
    · subst hh
      simp [setKey, jLookup, Ne.symm h]
    · simp [setKey, hh, jLookup, ih]

theorem jGet_jSet_same (j : J) (k : String) (v : J) (h : isObj j = true) :
    jGet (jSet j k v) k = some v := by
  cases j <;> simp [isObj] at h
  simp [jSet, jGet, jLookup_setKey_same]

theorem jGet_jSet_other (j : J) (k k' : String) (v : J) (h : k' ≠ k) :
    jGet (jSet j k v) k' = jGet j k' := by
  cases j <;> simp [jSet, jGet]
  exact jLookup_setKey_other _ _ _ _ h

theorem isObj_jSet (j : J) (k : String) (v : J) : isObj (jSet j k v) = isObj j := by
  cases j <;> simp [jSet, isObj]

theorem isObj_enrichStep (m c : J) (f : String) : isObj (enrichStep m c f) = isObj c := by
  rcases hm : jGet m f with _ | v
  · simp [enrichStep, hm]
  · cases v <;> simp [enrichStep, hm, isObj_jSet]

theorem enrichStep_get_other (m c : J) (f f' : String) (h : f' ≠ f) :
    jGet (enrichStep m c f) f' = jGet c f' := by
  rcases hm : jGet m f with _ | v
  · simp [enrichStep, hm]
  · cases v <;> simp [enrichStep, hm, jGet_jSet_other _ f f' _ h]

theorem enrichStep_get_same (m c : J) (f : String) (hc : isObj c = true) :
    jGet (enrichStep m c f) f =
      if goodField m f = true then jGet m f else jGet c f := by
  rcases hm : jGet m f with _ | v
  · simp [enrichStep, goodField, hm]
  · cases v <;> simp [enrichStep, goodField, hm, jGet_jSet_same _ _ _ hc]

/-- Field-level description of the whole merge fold, for a duplicate-free
field list. -/
theorem enrichFold_get (m : J) (L : List String) (hnd : L.Nodup) (c : J)
    (hc : isObj c = true) (f : String) :
    jGet (L.foldl (enrichStep m) c) f =
      if f ∈ L ∧ goodField m f = true then jGet m f else jGet c f := by
  induction L generalizing c with
  | nil => simp
  | cons f₀ L ih =>
    rw [List.foldl_cons]
    rw [ih (List.Nodup.of_cons hnd) (enrichStep m c f₀)
      (by rw [isObj_enrichStep]; exact hc)]
    by_cases hf : f = f₀
    · subst hf
      have hfL : f ∉ L := (List.nodup_cons.mp hnd).1
      simp only [hfL, false_and, if_false]
      rw [enrichStep_get_same m c f hc]
      by_cases hg : goodField m f = true
      · simp [hg]
      · simp [hg]
    · rw [enrichStep_get_other m c f₀ f hf]
      by_cases hfL : f ∈ L
      · simp [hfL, hf]
      · simp [hfL, hf]

/-! ## Cost enrichment (`_add_cost_to_product`) -/

/-- `DEFAULT_COST_PER_LB`: the static per-category cost default table
($/lb, used when no legacy match exists). -/
def DEFAULT_COST_PER_LB : List (String × J) :=
  [("beef", J.num 325 2), ("poultry", J.num 210 2), ("pork", J.num 215 2),
   ("fish", J.num 280 2), ("cheese", J.num 380 2), ("dairy", J.num 350 2),
   ("eggs", J.num 200 2), ("vegetables", J.num 120 2), ("fruits", J.num 150 2),
   ("grains", J.num 65 2), ("beans", J.num 55 2), ("other", J.num 200 2)]

/-- `DEFAULT_COST_PER_LB.get(cat, 2.00)`: the table is keyed by strings,
so any non-string category falls to the global default. -/
def defaultCostFor (cat : J) : J :=
  match cat with
  | .str s => (jLookup DEFAULT_COST_PER_LB s).getD (J.num 200 2)
  | _ => J.num 200 2

/-- Python `x == 'lit'` for a JSON value. -/
def jEqStr (j : J) (s : String) : Bool :=
  match j with
  | .str t => t = s
  | _ => false

/-- `_add_cost_to_product`: set `est_cost_per_lb` from the legacy cost
lookup when the identifier is present there, else from the per-category
default table (category defaulting to `'other'`); then derive
`caf_recommended` from `processing_level`. -/
def _add_cost_to_product (costLookup : List (String × J)) (product : J) : J :=
  let wid := widOf product
  let enriched :=
    match jLookup costLookup wid with
    | some v => jSet product "est_cost_per_lb" v
    | none =>
      jSet product "est_cost_per_lb"
        (defaultCostFor (jGetD product "category" (J.str "other")))
  jSet enriched "caf_recommended"
    (J.bool (jEqStr (jGetD product "processing_level" (J.str "processed")) "raw"))

/-! ## Category routing (`handle_commodities`) -/

/-- `CATEGORY_MAP`: frontend route slug → comprehensive JSON category
key(s), in the source's insertion order. -/
def CATEGORY_MAP : List (String × List String) :=
  [("beef", ["beef"]), ("poultry", ["poultry"]), ("pork", ["pork"]),
   ("fish", ["fish"]), ("vegetables", ["vegetables"]), ("fruits", ["fruits"]),
   ("grains", ["grains"]), ("dairy", ["dairy", "cheese", "eggs"]),
   ("legumes", ["beans"])]

/-- An HTTP reply: status code plus JSON body (the CORS headers, attached
uniformly to every reply, are not modelled). -/
structure HttpReply where
  status : Nat
  body : J

/-- `comprehensive_cats.get(comp_cat, [])`: the product list of one
source category of `products_by_category`. -/
def lkpCats (cats : List (String × List J)) (k : String) : List J :=
  match cats.find? (fun e => e.1 = k) with
  | some e => e.2
  | none => []

/-- Python's rendering of `list(CATEGORY_MAP.keys())` inside the 404
message. -/
def validSlugsRepr : String := pyRepr (J.arr (CATEGORY_MAP.map (fun e => J.str e.1)))

/-- `handle_commodities`: with a category slug, serve the merged,
cost-enriched product lists of every mapped source category (200), or a
404 error naming the valid slugs; with no slug, serve the per-slug
count summary. -/
def handle_commodities (cats : List (String × List J))
    (costLookup : List (String × J)) (category : Option String) : HttpReply :=
  match category with
  | some cat =>
    match CATEGORY_MAP.find? (fun e => e.1 = cat) with
    | some e =>
      HttpReply.mk 200
        (J.arr ((e.2.flatMap (lkpCats cats)).map (_add_cost_to_product costLookup)))
    | none =>
      HttpReply.mk 404
        (J.obj [("error", J.str ("Category " ++ pyQuote ++ cat ++ pyQuote ++
          " not found. Valid: " ++ validSlugsRepr))])
  | none =>
    HttpReply.mk 200
      (J.obj (CATEGORY_MAP.map (fun e =>
        (e.1, J.num ((e.2.flatMap (lkpCats cats)).length : Int) 0))))

/-! ## `json.dumps(..., indent=2)` and f-string formatting -/

/-- JSON string escaping of one character. -/
def escChar (c : Char) : String :=
  if c = '"' then "\\\""
  else if c = '\\' then "\\\\"
  else if c = '\n' then "\\n"
  else if c = '\t' then "\\t"
  else if c = '\r' then "\\r"
  else String.singleton c

/-- JSON string escaping. -/
def jsonEscape (s : String) : String := String.join (s.toList.map escChar)

/-- Two-space indentation at a nesting level. -/
def indentStr (lvl : Nat) : String := String.mk (List.replicate (2 * lvl) ' ')

mutual

/-- `json.dumps(x, indent=2)` at a given nesting level. -/
def dumpsIndent2 : J → Nat → String
  | .null, _ => "null"
  | .bool b, _ => if b then "true" else "false"
  | .num m e, _ => decStr m e
  | .str s, _ => "\"" ++ jsonEscape s ++ "\""
  | .arr [], _ => "[]"
  | .arr xs, lvl => "[\n" ++ dumpsItems xs (lvl + 1) ++ "\n" ++ indentStr lvl ++ "]"
  | .obj [], _ => "\x7b\x7d"
  | .obj kvs, lvl => "\x7b\n" ++ dumpsKVs kvs (lvl + 1) ++ "\n" ++ indentStr lvl ++ "\x7d"

/-- Indented, comma-and-newline separated array elements. -/
def dumpsItems : List J → Nat → String
  | [], _ => ""
  | [x], lvl => indentStr lvl ++ dumpsIndent2 x lvl
  | x :: xs, lvl => indentStr lvl ++ dumpsIndent2 x lvl ++ ",\n" ++ dumpsItems xs lvl

/-- Indented, comma-and-newline separated object entries. -/
def dumpsKVs : List (String × J) → Nat → String
  | [], _ => ""
  | [kv], lvl => indentStr lvl ++ "\"" ++ jsonEscape kv.1 ++ "\": " ++ dumpsIndent2 kv.2 lvl
  | kv :: kvs, lvl =>
    indentStr lvl ++ "\"" ++ jsonEscape kv.1 ++ "\": " ++ dumpsIndent2 kv.2 lvl ++
      ",\n" ++ dumpsKVs kvs lvl

end

/-- The f-string `{x:,}` comma-grouped rendering of an integer (floats
and non-numbers fall back to their plain rendering; the handlers apply
this only to the annual-meal count). -/
def commaFmt : J → String
  | .num m 0 =>
    (if m < 0 then "-" else "") ++
      String.mk (((toString m.natAbs).toList.reverse.enum.flatMap
        (fun p => if p.1 ≠ 0 ∧ p.1 % 3 = 0 then [',', p.2] else [p.2])).reverse)
  | .num m e => decStr m e
  | j => pyStr j

/-! ## Streaming handlers -/

/-- The value a streaming handler returns: either the early-exit SSE
error stream (the upstream model is never invoked), or the relay
response, determined by the prompt handed to `stream_gemini` and the
code-execution flag. -/
inductive StreamResponse where
  | errorStream (events : List Event)
  | relay (prompt : String) (codeExecution : Bool)

/-- Python dict lookup with an arbitrary JSON value as key: the
reference documents are keyed by strings, so any non-string key misses. -/
def jKeyGet (j key : J) : Option J :=
  match j, key with
  | .obj kvs, .str s => jLookup kvs s
  | _, _ => none

/-- Numeric multiplication `quantity_cases * case_weight` on exact
decimals (the handlers apply it only to numbers). -/
def jMul (a b : J) : J :=
  match a, b with
  | .num m1 e1, .num m2 e2 => .num (m1 * m2) (e1 + e2)
  | _, _ => .null

/-- `data.get('items', [])`, iterated by the handler as a list. -/
def itemsOf (data : J) : List J :=
  match jGet data "items" with
  | some (.arr xs) => xs
  | _ => []

/-- `item.get('quantity_cases', item.get('quantity_lbs', 0))`. -/
def qtyOf (item : J) : J :=
  match jGet item "quantity_cases" with
  | some v => v
  | none => jGetD item "quantity_lbs" (J.num 0 0)

/-- The line assembled for an item resolved against the comprehensive
source (USDA Product Info Sheet data, including `servings_per_case`). -/
def compEntry (wid : String) (item c : J) : J :=
  J.obj
    [("wbscm_id", J.str wid),
     ("description", jGetD c "description" (J.str "Unknown")),
     ("quantity_cases", qtyOf item),
     ("case_weight_lbs", jGetD c "case_weight_lbs" (J.num 40 0)),
     ("quantity_lbs", jMul (qtyOf item) (jGetD c "case_weight_lbs" (J.num 40 0))),
     ("servings_per_case", (jGet c "servings_per_case").getD J.null),
     ("serving_size_oz", jGetD c "serving_size_oz" (J.num 20 1)),
     ("cn_credit_oz", jGetD c "cn_credit_oz" (J.num 20 1)),
     ("est_cost_per_lb", jGetD c "est_cost_per_lb" (J.num 30 1)),
     ("yield_factor", jGetD c "yield_factor" (J.num 75 2)),
     ("source", J.str "usda_product_sheet")]

/-- The line assembled for an item that only resolves against the legacy
source (default case weight, servings computed later from yield). -/
def legEntry (wid : String) (item l : J) : J :=
  J.obj
    [("wbscm_id", J.str wid),
     ("description", jGetD l "description" (J.str "Unknown")),
     ("quantity_cases", qtyOf item),
     ("case_weight_lbs", J.num 40 0),
     ("quantity_lbs", jMul (qtyOf item) (J.num 40 0)),
     ("servings_per_case", J.null),
     ("est_cost_per_lb", jGetD l "est_cost_per_lb" (J.num 30 1)),
     ("yield_factor", jGetD l "yield_factor" (J.num 75 2)),
     ("source", J.str "legacy_estimate")]

/-- Resolution of one requested item: first the comprehensive product
list, then the flattened legacy commodities; `none` when the identifier
is found in neither (the handler logs and skips such an item). -/
def resolveEntry (comp leg : List J) (item : J) : Option J :=
  match comp.find? (matchesId (widOf item)) with
  | some c => some (compEntry (widOf item) item c)
  | none =>
    match leg.find? (matchesId (widOf item)) with
    | some l => some (legEntry (widOf item) item l)
    | none => none

/-- Whether an item resolves against either data source. -/
def resolvable (comp leg : List J) (item : J) : Bool :=
  (resolveEntry comp leg item).isSome

/-- The `items_data` accumulation loop of `handle_stream_allocate`. -/
def buildItemsData (comp leg : List J) : List J → List J
  | [] => []
  | item :: rest =>
    match resolveEntry comp leg item with
    | some e => e :: buildItemsData comp leg rest
    | none => buildItemsData comp leg rest

/-- The allocation prompt assembled by `handle_stream_allocate`. -/
def allocatePrompt (items_data : List J) (oz annual : J) : String :=
  "\nCalculate commodity allocation for this order.\n\n**Items with USDA Product Sheet Data:**\n"
  ++ dumpsIndent2 (J.arr items_data) 0
  ++ "\n\n**Parameters:**\n- Default serving size: " ++ pyStr oz
  ++ " oz cooked meat per serving\n- Annual meals: " ++ commaFmt annual
  ++ "\n\nUsing Python code execution, calculate for EACH item:\n\n"
  ++ "1. **Total Cost**: quantity_lbs × est_cost_per_lb\n"
  ++ "2. **Number of Cases**: quantity_cases (already provided)\n"
  ++ "3. **Number of Servings**:\n"
  ++ "   - If servings_per_case is available (from USDA Product Sheet): cases × servings_per_case\n"
  ++ "   - If servings_per_case is null: Calculate as (quantity_lbs × 16 × yield_factor) ÷ serving_size_oz\n\n"
  ++ "Then calculate:\n- Grand total cost\n- Grand total servings\n"
  ++ "- Percentage of annual meals covered (total_servings / annual_meals × 100)\n\n"
  ++ "IMPORTANT: Use servings_per_case when available - it" ++ pyQuote
  ++ "s the accurate count from USDA Product Info Sheets.\n\nPrint results as JSON:\n\x7b\n"
  ++ "    \"items\": [\x7b\"wbscm_id\": \"...\", \"description\": \"...\", \"cost\": 0.00, \"cases\": 0, \"servings\": 0\x7d],\n"
  ++ "    \"total_cost\": 0.00,\n    \"total_servings\": 0,\n    \"meal_coverage_pct\": 0.0\n\x7d\n"

/-- `handle_stream_allocate`: resolve each requested item against the
comprehensive then the flattened legacy source, skipping unresolved
items; if nothing resolved, return the one-event error stream without
invoking the model; otherwise assemble the allocation prompt and invoke
the relay with code execution enabled. -/
def handle_stream_allocate (comp : List J) (legacyDoc data : J) : StreamResponse :=
  let legacy_commodities := extract_all_commodities legacyDoc
  let items_data := buildItemsData comp legacy_commodities (itemsOf data)
  if items_data.isEmpty then
    StreamResponse.errorStream [Event.error "No valid commodities found"]
  else
    StreamResponse.relay
      (allocatePrompt items_data (jGetD data "oz_per_serving" (J.num 20 1))
        (jGetD data "annual_meals" (J.num 3397500 0)))
      true

/-- The compliance prompt assembled by `handle_stream_compliance`. -/
def compliancePrompt (week_menu grade_group reqs : J) : String :=
  "\nCheck this weekly menu for USDA meal pattern compliance:\n\n**Menu:**\n"
  ++ dumpsIndent2 week_menu 0
  ++ "\n\n**Requirements for " ++ pyStr grade_group ++ ":**\n"
  ++ dumpsIndent2 reqs 0
  ++ "\n\nUsing Python code execution:\n1. Sum the nutritional components for the week\n"
  ++ "2. Compare against minimum/maximum requirements\n3. Identify any deficits or excesses\n\n"
  ++ "Return JSON:\n\x7b\n    \"is_compliant\": true/false,\n"
  ++ "    \"issues\": [\x7b\"component\": \"...\", \"required\": 0, \"actual\": 0, \"deficit\": 0\x7d],\n"
  ++ "    \"suggestions\": [\"...\"]\n\x7d\n"

/-- `handle_stream_compliance`: look the grade group's requirements up in
the meal-pattern document (falling back to `elementary`), assemble the
compliance prompt, and invoke the relay with code execution enabled. -/
def handle_stream_compliance (mealPatterns data : J) : StreamResponse :=
  let week_menu := jGetD data "week_menu" (J.obj [])
  let grade_group := jGetD data "grade_group" (J.str "elementary")
  let reqs :=
    match jKeyGet mealPatterns grade_group with
    | some r => r
    | none => (jKeyGet mealPatterns (J.str "elementary")).getD (J.obj [])
  StreamResponse.relay (compliancePrompt week_menu grade_group reqs) true

mutual

/-- `json.dumps(x)` with the default compact separators, used by the
budget handler for the rates and demographics fragments. -/
def dumpsCompact : J → String
  | .null => "null"
  | .bool b => if b then "true" else "false"
  | .num m e => decStr m e
  | .str s => "\"" ++ jsonEscape s ++ "\""
  | .arr xs => "[" ++ dumpsCompactItems xs ++ "]"
  | .obj kvs => "\x7b" ++ dumpsCompactKVs kvs ++ "\x7d"

/-- Comma-separated compact array elements. -/
def dumpsCompactItems : List J → String
  | [] => ""
  | [x] => dumpsCompact x
  | x :: xs => dumpsCompact x ++ ", " ++ dumpsCompactItems xs

/-- Comma-separated compact object entries. -/
def dumpsCompactKVs : List (String × J) → String
  | [] => ""
  | [kv] => "\"" ++ jsonEscape kv.1 ++ "\": " ++ dumpsCompact kv.2
  | kv :: kvs =>
    "\"" ++ jsonEscape kv.1 ++ "\": " ++ dumpsCompact kv.2 ++ ", " ++ dumpsCompactKVs kvs

end

/-- The f-string `{x:,.2f}` rendering applied to the commodity spend:
exactly two fractional digits, comma-grouped integer part (a number
with more than two fractional digits is rounded, half away from zero;
non-numbers fall back to their plain rendering). -/
def commaFmtFixed2 : J → String
  | .num m e =>
    let m2 : Int :=
      if e ≤ 2 then m * (10 : Int) ^ (2 - e)
      else
        let d := (10 : Nat) ^ (e - 2)
        let q := ((m.natAbs + d / 2) / d : Nat)
        if m < 0 then -(q : Int) else (q : Int)
    (if m2 < 0 then "-" else "") ++
      String.mk (((toString (m2.natAbs / 100)).toList.reverse.enum.flatMap
        (fun p => if p.1 ≠ 0 ∧ p.1 % 3 = 0 then [',', p.2] else [p.2])).reverse) ++
      "." ++ (if m2.natAbs % 100 < 10 then "0" else "") ++ toString (m2.natAbs % 100)
  | j => pyStr j

/-- Python truthiness of a JSON value, the coercion the relay's
`if enable_code_execution:` applies to the chat handler's flag. -/
def jTruthy : J → Bool
  | .null => false
  | .bool b => b
  | .num m _ => m ≠ 0
  | .str s => s ≠ ""
  | .arr xs => !xs.isEmpty
  | .obj kvs => !kvs.isEmpty

/-- The budget prompt assembled by `handle_stream_budget`. -/
def budgetPrompt (rates demographics total_spend annual_meals other_food labor : J) :
    String :=
  "\nCalculate budget headroom for values-aligned upgrades.\n\n**District Profile:**\n"
  ++ "- Reimbursement Rates: " ++ dumpsCompact rates
  ++ "\n- Demographics: " ++ dumpsCompact demographics
  ++ "\n\n**Costs:**\n- Total Commodity Spend: $" ++ commaFmtFixed2 total_spend
  ++ "\n- Annual Meals: " ++ commaFmt annual_meals
  ++ "\n- Non-Commodity Food: $" ++ pyStr other_food
  ++ "/meal\n- Labor & Overhead: $" ++ pyStr labor
  ++ "/meal\n\nUsing Python, calculate:\n1. Weighted Average Reimbursement Rate\n"
  ++ "2. Commodity Cost per Meal\n3. Total Food Cost per Meal\n"
  ++ "4. Food Cost as % of Reimbursement (target: 40-50%)\n5. Total Plate Cost\n"
  ++ "6. Budget Headroom (Reimbursement - Plate Cost)\n7. Annual Upgrade Budget\n\n"
  ++ "Print JSON results.\n"

/-- `handle_stream_budget`: read the cost parameters (with the source's
defaults) and the district profile's reimbursement rates and
demographics, assemble the budget prompt, and invoke the relay with
code execution enabled. -/
def handle_stream_budget (districtProfile data : J) : StreamResponse :=
  StreamResponse.relay
    (budgetPrompt (jGetD districtProfile "reimbursement_rates" (J.obj []))
      (jGetD districtProfile "demographics" (J.obj []))
      (jGetD data "total_commodity_spend" (J.num 185000 0))
      (jGetD data "total_annual_meals" (J.num 3397500 0))
      (jGetD data "other_food_cost_per_meal" (J.num 65 2))
      (jGetD data "labor_overhead_per_meal" (J.num 150 2)))
    true

/-- The entitlement prompt assembled by `handle_stream_entitlement`. -/
def entitlementPrompt (total_entitlement annual_meals allocations : J) : String :=
  "\nAudit USDA Entitlement spending.\n\n**District:**\n- Total Entitlement: $"
  ++ commaFmt total_entitlement
  ++ "\n- Annual Meals: " ++ commaFmt annual_meals
  ++ "\n- DoD Fresh: 20%\n\n**Allocations:**\n"
  ++ dumpsIndent2 allocations 0
  ++ "\n\nUsing Python, calculate:\n1. Total Allocated\n2. Remaining Balance\n"
  ++ "3. Utilization % (warn if <98%)\n4. DoD Fresh vs Brown Box split\n"
  ++ "5. Commodity Cost per Meal\n6. Commodity % of Total Food (target: 15-20%)\n\n"
  ++ "Print JSON results.\n"

/-- `handle_stream_entitlement`: read the allocations from the request
and the entitlement and meal totals from the district profile (with the
source's defaults), assemble the entitlement prompt, and invoke the
relay with code execution enabled. -/
def handle_stream_entitlement (districtProfile data : J) : StreamResponse :=
  StreamResponse.relay
    (entitlementPrompt (jGetD districtProfile "total_entitlement" (J.num 485000 0))
      (jGetD districtProfile "total_annual_meals" (J.num 3397500 0))
      (jGetD data "allocations" (J.obj [])))
    true

/-- The chat prompt: the fixed system preamble with the request's context
interpolated, then the user message. -/
def chatPrompt (message context : J) : String :=
  "\nYou are a helpful assistant for school food directors using Chef Ann Foundation"
  ++ pyQuote ++ "s\nCommodity Summer Planning tool. Help with:\n"
  ++ "- Values-aligned food choices (whole muscle proteins, scratch cooking)\n"
  ++ "- USDA commodity allocation\n- Menu planning and compliance\n- Budget optimization\n\n"
  ++ pyStr context ++ "\n\n\nUser: " ++ pyStr message

/-- `handle_stream_chat`: assemble the chat prompt from the request's
message and context and invoke the relay with the request's
`enable_code_execution` flag (default true, coerced by truthiness). -/
def handle_stream_chat (data : J) : StreamResponse :=
  StreamResponse.relay
    (chatPrompt (jGetD data "message" (J.str "")) (jGetD data "context" (J.str "")))
    (jTruthy (jGetD data "enable_code_execution" (J.bool true)))

/-! ## Legacy cost lookup (`_build_cost_lookup`) -/

mutual

/-- The sequence of `lookup[str(obj['wbscm_id'])] = obj['est_cost_per_lb']`
assignments performed by `_build_cost_lookup`'s recursive walk, in
execution order.  Note that, unlike `extract_all_commodities`, this walk
recurses into list elements. -/
def costEntries : J → List (String × J)
  | .arr xs => costEntriesList xs
  | .obj kvs =>
    if hasKey kvs "wbscm_id" && hasKey kvs "est_cost_per_lb" then
      [(pyStr ((jLookup kvs "wbscm_id").getD J.null),
        (jLookup kvs "est_cost_per_lb").getD J.null)]
    else costEntriesVals kvs
  | _ => []

/-- `costEntries` over a list's elements. -/
def costEntriesList : List J → List (String × J)
  | [] => []
  | x :: xs => costEntries x ++ costEntriesList xs

/-- `costEntries` over a mapping's values. -/
def costEntriesVals : List (String × J) → List (String × J)
  | [] => []
  | kv :: rest => costEntries kv.2 ++ costEntriesVals rest

end

/-- `_build_cost_lookup`: the WBSCM-id → `est_cost_per_lb` dict built by
replaying the walk's assignments on an empty dict. -/
def _build_cost_lookup (legacy : J) : List (String × J) :=
  (costEntries legacy).foldl (fun acc e => setKey acc e.1 e.2) []

/-! ## Dispatcher (`main`) -/

/-- The handler `main` dispatches a request to, by method and path. -/
inductive Route where
  | preflight
  | health
  | commoditiesIndex
  | commoditiesCat (slug : String)
  | districtProfile
  | mealPatterns
  | streamAllocate
  | streamCompliance
  | streamBudget
  | streamEntitlement
  | streamChat
  | notFound (path : String)
deriving DecidableEq, Repr

/-- Python `s.strip('/')`. -/
def stripSlashes (s : String) : String :=
  String.mk (((s.toList.dropWhile (· = '/')).reverse.dropWhile (· = '/')).reverse)

/-- `path.split('/api/commodities/')[-1].strip('/')`. -/
def categoryOf (path : String) : String :=
  stripSlashes ((path.splitOn "/api/commodities/").getLastD path)

/-- The routing decision of `main`, as a function of request method and
path (request-body parsing, which only happens after the method check
for the streaming routes, is not part of the decision). -/
def route (method path : String) : Route :=
  if method = "OPTIONS" then Route.preflight
  else if path = "/" ∨ path = "" then Route.health
  else if path = "/api/commodities" then Route.commoditiesIndex
  else if path.startsWith "/api/commodities/" then Route.commoditiesCat (categoryOf path)
  else if path = "/api/district-profile" then Route.districtProfile
  else if path = "/api/meal-patterns" then Route.mealPatterns
  else if method = "POST" then
    if path = "/api/stream/allocate" then Route.streamAllocate
    else if path = "/api/stream/compliance" then Route.streamCompliance
    else if path = "/api/stream/budget" then Route.streamBudget
    else if path = "/api/stream/entitlement" then Route.streamEntitlement
    else if path = "/api/stream/chat" then Route.streamChat
    else Route.notFound path
  else Route.notFound path

/-! ## Relay helper lemmas -/

/-- Whether an event is one of the per-part content events (text, code,
result) — i.e. neither `done` nor `error`. -/
def isContentEv : Event → Bool
  | .text _ => true
  | .code _ => true
  | .result _ => true
  | _ => false

theorem procPart_events_content (a : Agg) (p : Part) :
    ((procPart a p).2).all isContentEv = true := by
  rcases p with ⟨t, ec, cer⟩
  rcases t with _ | t <;> rcases ec with _ | ec <;> rcases cer with _ | cer <;>
    simp [procPart, isContentEv, List.all_append] <;>
    by_cases ht : t = "" <;> simp [ht, isContentEv]

theorem procParts_events_content (ps : List Part) :
    ∀ a : Agg, ((procParts a ps).2).all isContentEv = true := by
  induction ps with
  | nil => intro a; rfl
  | cons p ps ih =>
    intro a
    simp [procParts, List.all_append, procPart_events_content, ih]

theorem procChunk_events_content (a : Agg) (c : Chunk) :
    ((procChunk a c).2).all isContentEv = true := by
  rcases c with ⟨cands⟩
  rcases cands with _ | ⟨cand, rest⟩
  · rfl
  · rcases cand with ⟨content⟩
    rcases content with _ | content
    · rfl
    · rcases content with ⟨ps⟩
      rcases ps with _ | ⟨p, ps⟩
      · rfl
      · exact procParts_events_content _ _

theorem procChunks_events_content (cs : List Chunk) :
    ∀ a : Agg, ((procChunks a cs).2).all isContentEv = true := by
  induction cs with
  | nil => intro a; rfl
  | cons c cs ih =>
    intro a
    simp [procChunks, List.all_append, procChunk_events_content, ih]

/-! ## Claims -/

/-- C1: on the scripted upstream sequence — a text-only chunk `"A"`, a
code-only chunk `"print(1)"`, a result-only chunk `{output: "1",
outcome: "OK"}`, then normal stream end — the relay emits exactly four
SSE events in order: text, code, result, and a final done event
carrying the aggregate `{text: "A", code_blocks: ["print(1)"],
code_results: [{output: "1", outcome: "OK"}]}`. -/
theorem C1_stream_relay_scripted_sequence :
    stream_gemini
      [Chunk.mk [Candidate.mk (some (Content.mk [{ text := some "A" }]))],
       Chunk.mk [Candidate.mk (some (Content.mk [{ executable_code := some "print(1)" }]))],
       Chunk.mk [Candidate.mk (some (Content.mk [{ code_execution_result := some ⟨"1", "OK"⟩ }]))]]
      none =
      [Event.text "A", Event.code "print(1)", Event.result ⟨"1", "OK"⟩,
       Event.done ⟨"A", ["print(1)"], [⟨"1", "OK"⟩]⟩] := by decide

/-- C2: whenever the upstream stream raises (after any prefix of
delivered chunks), the relay's output is the content events of the
delivered chunks followed by exactly one final error event — in
particular no done event and no event after the error; concretely, for
a stream that raises after one text chunk, exactly two events are
emitted: text then error. -/
theorem C2_stream_relay_error_path :
    (∀ (chunks : List Chunk) (msg : String),
      ∃ body, stream_gemini chunks (some msg) = body ++ [Event.error msg] ∧
        body.all isContentEv = true) ∧
    stream_gemini [Chunk.mk [Candidate.mk (some (Content.mk [{ text := some "A" }]))]]
        (some "boom") =
      [Event.text "A", Event.error "boom"] :=
  ⟨fun chunks msg =>
    ⟨(procChunks ⟨"", [], []⟩ chunks).2, rfl, procChunks_events_content chunks _⟩,
   by decide⟩

/-- C3 (counterexample): `extract_all_commodities` does not flatten the
elements of a sequence — it appends them as they are.  On the document
`{k: [[r]]}` with record `r = {wbscm_id: 1}`, the output is the inner
sequence `[r]` itself: a non-record node, while the leaf record `r`
(which the spec-worded flatten returns) is not an element of the
output. -/
theorem C3_counterexample :
    extract_all_commodities (J.obj [("k", J.arr [J.arr [J.obj [("wbscm_id", J.num 1 0)]]])]) =
        [J.arr [J.obj [("wbscm_id", J.num 1 0)]]] ∧
      isRecord (J.arr [J.obj [("wbscm_id", J.num 1 0)]]) = false ∧
      flattenSpec (J.obj [("k", J.arr [J.arr [J.obj [("wbscm_id", J.num 1 0)]]])]) =
        [J.obj [("wbscm_id", J.num 1 0)]] :=
  ⟨rfl, rfl, rfl⟩

/-- C3 (amended): provided every sequence reachable in the document
without passing through a record holds leaf records only,
`extract_all_commodities` agrees with the spec-worded depth-first
flatten (every leaf record exactly once per occurrence path, in
depth-first order) and returns records only. -/
theorem C3_flatten_amended (D : J) (h : seqsHoldRecords D = true) :
    extract_all_commodities D = flattenSpec D ∧
      (extract_all_commodities D).all isRecord = true :=
  ⟨extract_eq_flattenSpec D h, extract_all_isRecord D h⟩

/-- Witness for C3 at a concrete nested document. -/
theorem C3_flatten_amended_witness :
    extract_all_commodities
        (J.obj [("proteins", J.obj [("beef", J.arr [J.obj [("wbscm_id", J.str "100")]])])]) =
      flattenSpec
        (J.obj [("proteins", J.obj [("beef", J.arr [J.obj [("wbscm_id", J.str "100")]])])]) ∧
    (extract_all_commodities
        (J.obj [("proteins", J.obj [("beef", J.arr [J.obj [("wbscm_id", J.str "100")]])])])).all
      isRecord = true :=
  C3_flatten_amended _ rfl

/-- C4 (counterexample): `enrich_commodity` copies only its seven listed
fields.  With the identifier present in both sources and the
comprehensive record carrying the non-null field `description = "new"`,
the enriched record keeps the legacy value `"old"` — the comprehensive
value is not preferred for that field. -/
theorem C4_counterexample :
    ([J.obj [("wbscm_id", J.str "1"), ("description", J.str "new")]].find?
        (matchesId (widOf (J.obj [("wbscm_id", J.str "1"), ("description", J.str "old")]))) =
      some (J.obj [("wbscm_id", J.str "1"), ("description", J.str "new")])) ∧
    jGet (J.obj [("wbscm_id", J.str "1"), ("description", J.str "new")]) "description" =
      some (J.str "new") ∧
    jGet (enrich_commodity [J.obj [("wbscm_id", J.str "1"), ("description", J.str "new")]]
        (J.obj [("wbscm_id", J.str "1"), ("description", J.str "old")])) "description" =
      some (J.str "old") ∧
    J.str "old" ≠ J.str "new" :=
  ⟨rfl, rfl, rfl, by simp⟩

/-- C4 (amended): for a commodity record whose identifier matches a
comprehensive record, enrichment prefers the comprehensive value
exactly for the seven merged fields that are present and non-null in
the comprehensive record, keeps the commodity's own value for every
other field, and never overwrites a field with null. -/
theorem C4_enrich_amended (comp : List J) (c m : J) (hc : isObj c = true)
    (hm : comp.find? (matchesId (widOf c)) = some m) :
    (∀ f : String,
      jGet (enrich_commodity comp c) f =
        if f ∈ ENRICH_FIELDS ∧ goodField m f = true then jGet m f else jGet c f) ∧
    (∀ f : String, jGet (enrich_commodity comp c) f = some J.null →
      jGet c f = some J.null) := by
  have key : ∀ f : String,
      jGet (enrich_commodity comp c) f =
        if f ∈ ENRICH_FIELDS ∧ goodField m f = true then jGet m f else jGet c f := by
    intro f
    unfold enrich_commodity
    simp only [hm]
    exact enrichFold_get m ENRICH_FIELDS (by decide) c hc f
  refine ⟨key, fun f hnull => ?_⟩
  rw [key f] at hnull
  by_cases hcond : f ∈ ENRICH_FIELDS ∧ goodField m f = true
  · rw [if_pos hcond] at hnull
    exact absurd hcond.2 (by simp [goodField, hnull])
  · rwa [if_neg hcond] at hnull

/-- Witness for C4 at a concrete record pair. -/
theorem C4_enrich_amended_witness :
    jGet (enrich_commodity
        [J.obj [("wbscm_id", J.str "1"), ("servings_per_case", J.num 40 0)]]
        (J.obj [("wbscm_id", J.str "1")])) "servings_per_case" =
      if "servings_per_case" ∈ ENRICH_FIELDS ∧
          goodField (J.obj [("wbscm_id", J.str "1"), ("servings_per_case", J.num 40 0)])
            "servings_per_case" = true then
        jGet (J.obj [("wbscm_id", J.str "1"), ("servings_per_case", J.num 40 0)])
          "servings_per_case"
      else jGet (J.obj [("wbscm_id", J.str "1")]) "servings_per_case" :=
  (C4_enrich_amended [J.obj [("wbscm_id", J.str "1"), ("servings_per_case", J.num 40 0)]]
    (J.obj [("wbscm_id", J.str "1")])
    (J.obj [("wbscm_id", J.str "1"), ("servings_per_case", J.num 40 0)]) rfl rfl).1
    "servings_per_case"

/-- Modelled from the claim's words (C5): the cost the claim prescribes —
the legacy lookup value when the identifier is present there; else the
per-category default from the static table; else (category absent from
the table, of a non-string kind, or missing altogether) the single
global default `2.00`. -/
def claimedCost (costLookup : List (String × J)) (product : J) : J :=
  match jLookup costLookup (widOf product) with
  | some v => v
  | none =>
    match jGet product "category" with
    | some (J.str c) => (jLookup DEFAULT_COST_PER_LB c).getD (J.num 200 2)
    | some _ => J.num 200 2
    | none => J.num 200 2

/-- C5: `_add_cost_to_product` gives every product record exactly the
claim's cost: the legacy lookup value when present, else the
per-category default, else the global default 2.00 (the code reaches it
for a missing category via the `'other'` table entry, which also maps
to 2.00). -/
theorem C5_add_cost_claimed (costLookup : List (String × J)) (product : J)
    (hp : isObj product = true) :
    jGet (_add_cost_to_product costLookup product) "est_cost_per_lb" =
      some (claimedCost costLookup product) := by
  simp only [_add_cost_to_product]
  rw [jGet_jSet_other _ _ _ _ (by decide)]
  rcases hl : jLookup costLookup (widOf product) with _ | v
  · simp only [hl]
    rw [jGet_jSet_same _ _ _ hp]
    unfold claimedCost
    simp only [hl]
    rcases hcat : jGet product "category" with _ | c
    · simp only [jGetD, hcat, Option.getD_none, defaultCostFor]
      rfl
    · cases c <;> simp [jGetD, hcat, defaultCostFor]
  · simp only [hl]
    rw [jGet_jSet_same _ _ _ hp]
    unfold claimedCost
    simp [hl]

/-- Witness for C5 at a concrete product with an unknown category. -/
theorem C5_add_cost_claimed_witness :
    jGet (_add_cost_to_product []
        (J.obj [("wbscm_id", J.str "9"), ("category", J.str "widgets")]))
      "est_cost_per_lb" =
      some (claimedCost [] (J.obj [("wbscm_id", J.str "9"), ("category", J.str "widgets")])) :=
  C5_add_cost_claimed [] (J.obj [("wbscm_id", J.str "9"), ("category", J.str "widgets")]) rfl

theorem buildItemsData_eq_filterMap (comp leg : List J) (items : List J) :
    buildItemsData comp leg items = items.filterMap (resolveEntry comp leg) := by
  induction items with
  | nil => rfl
  | cons it rest ih =>
    rcases hr : resolveEntry comp leg it with _ | e <;>
      simp [buildItemsData, hr, ih]

theorem length_buildItemsData (comp leg : List J) (items : List J) :
    (buildItemsData comp leg items).length = items.countP (resolvable comp leg) := by
  induction items with
  | nil => rfl
  | cons it rest ih =>
    rcases hr : resolveEntry comp leg it with _ | e <;>
      simp [buildItemsData, hr, List.countP_cons, resolvable, ih]

theorem countP_add_countP_not {α : Type} (p : α → Bool) (l : List α) :
    l.countP p + l.countP (fun x => !(p x)) = l.length := by
  induction l with
  | nil => rfl
  | cons x l ih =>
    rcases hx : p x <;> simp [List.countP_cons, hx] <;> omega

/-- C6 (counterexample): with a single-item request whose identifier
resolves against neither source, the resolved list is empty (the
claimed N − 1 = 0) but the batch does not proceed: the handler returns
the one-event error stream instead of invoking the model. -/
theorem C6_counterexample :
    resolvable [] (extract_all_commodities (J.obj [])) (J.obj [("wbscm_id", J.str "X")]) =
        false ∧
      handle_stream_allocate [] (J.obj [])
          (J.obj [("items", J.arr [J.obj [("wbscm_id", J.str "X")]])]) =
        StreamResponse.errorStream [Event.error "No valid commodities found"] :=
  ⟨rfl, rfl⟩

/-- C6 (amended): for a request of N ≥ 2 items of which exactly one
resolves against neither source, the resolved items list assembled for
the prompt has exactly N − 1 entries (the unresolved item is skipped)
and the handler proceeds to invoke the relay rather than failing. -/
theorem C6_allocate_amended (comp : List J) (legacyDoc data : J) (items : List J)
    (hitems : jGet data "items" = some (J.arr items))
    (hone : items.countP
        (fun it => !(resolvable comp (extract_all_commodities legacyDoc) it)) = 1)
    (hN : 2 ≤ items.length) :
    (buildItemsData comp (extract_all_commodities legacyDoc) items).length =
        items.length - 1 ∧
      ∃ prompt, handle_stream_allocate comp legacyDoc data =
        StreamResponse.relay prompt true := by
  have hlen : (buildItemsData comp (extract_all_commodities legacyDoc) items).length =
      items.length - 1 := by
    rw [length_buildItemsData]
    have hsum := countP_add_countP_not (resolvable comp (extract_all_commodities legacyDoc)) items
    omega
  refine ⟨hlen, ?_⟩
  have hio : itemsOf data = items := by simp [itemsOf, hitems]
  have hne : (buildItemsData comp (extract_all_commodities legacyDoc) items).isEmpty = false := by
    rcases hb : buildItemsData comp (extract_all_commodities legacyDoc) items with _ | ⟨x, xs⟩
    · rw [hb] at hlen
      simp at hlen
      omega
    · rfl
  refine ⟨allocatePrompt (buildItemsData comp (extract_all_commodities legacyDoc) items)
    (jGetD data "oz_per_serving" (J.num 20 1)) (jGetD data "annual_meals" (J.num 3397500 0)), ?_⟩
  simp [handle_stream_allocate, hio, hne]

/-- Witness for C6: two requested items, one resolvable against the
comprehensive source, one against neither. -/
theorem C6_allocate_amended_witness :
    (buildItemsData [J.obj [("wbscm_id", J.str "1")]] (extract_all_commodities (J.obj []))
          [J.obj [("wbscm_id", J.str "1"), ("quantity_cases", J.num 2 0)],
           J.obj [("wbscm_id", J.str "ZZ")]]).length =
        [J.obj [("wbscm_id", J.str "1"), ("quantity_cases", J.num 2 0)],
         J.obj [("wbscm_id", J.str "ZZ")]].length - 1 ∧
      ∃ prompt, handle_stream_allocate [J.obj [("wbscm_id", J.str "1")]] (J.obj [])
          (J.obj [("items", J.arr
            [J.obj [("wbscm_id", J.str "1"), ("quantity_cases", J.num 2 0)],
             J.obj [("wbscm_id", J.str "ZZ")]])]) =
        StreamResponse.relay prompt true :=
  C6_allocate_amended [J.obj [("wbscm_id", J.str "1")]] (J.obj [])
    (J.obj [("items", J.arr
      [J.obj [("wbscm_id", J.str "1"), ("quantity_cases", J.num 2 0)],
       J.obj [("wbscm_id", J.str "ZZ")]])])
    [J.obj [("wbscm_id", J.str "1"), ("quantity_cases", J.num 2 0)],
     J.obj [("wbscm_id", J.str "ZZ")]]
    rfl rfl (by decide)

/-- C7: `handle_commodities` with an unknown slug answers 404 with an
error body naming the valid slugs; with a known slug it answers 200
with the concatenation, in mapping order, of every mapped source
category's product list, each record cost-enriched, and the output
length is the sum of the source lists' lengths (no duplicates are
dropped). -/
theorem C7_commodities_routing (cats : List (String × List J))
    (costLookup : List (String × J)) (slug : String) :
    (CATEGORY_MAP.find? (fun e => e.1 = slug) = none →
      handle_commodities cats costLookup (some slug) =
        HttpReply.mk 404 (J.obj [("error", J.str ("Category " ++ pyQuote ++ slug ++
          pyQuote ++ " not found. Valid: " ++ validSlugsRepr))])) ∧
    (∀ srcCats : List String,
      CATEGORY_MAP.find? (fun e => e.1 = slug) = some (slug, srcCats) →
      handle_commodities cats costLookup (some slug) =
          HttpReply.mk 200 (J.arr ((srcCats.flatMap (lkpCats cats)).map
            (_add_cost_to_product costLookup))) ∧
        ((srcCats.flatMap (lkpCats cats)).map (_add_cost_to_product costLookup)).length =
          (srcCats.map (fun c => (lkpCats cats c).length)).sum) := by
  refine ⟨fun h => by simp [handle_commodities, h], fun srcCats h => ⟨?_, ?_⟩⟩
  · simp [handle_commodities, h]
  · rw [List.length_map, List.length_flatMap]
    rfl

/-- Witness for C7 at an unknown slug and at the two-source slug
`dairy`. -/
theorem C7_commodities_routing_witness :
    handle_commodities [] [] (some "nope") =
        HttpReply.mk 404 (J.obj [("error", J.str ("Category " ++ pyQuote ++ "nope" ++
          pyQuote ++ " not found. Valid: " ++ validSlugsRepr))]) ∧
      (handle_commodities [] [] (some "dairy") =
          HttpReply.mk 200 (J.arr ((["dairy", "cheese", "eggs"].flatMap (lkpCats [])).map
            (_add_cost_to_product []))) ∧
        ((["dairy", "cheese", "eggs"].flatMap (lkpCats [])).map
            (_add_cost_to_product [])).length =
          (["dairy", "cheese", "eggs"].map (fun c => (lkpCats [] c).length)).sum) :=
  ⟨(C7_commodities_routing [] [] "nope").1 rfl,
   (C7_commodities_routing [] [] "dairy").2 ["dairy", "cheese", "eggs"] rfl⟩

/-- C8 (counterexample): the dispatcher serves the health payload for a
POST to `/` — path matching for the data routes ignores the method —
whereas the claim prescribes a 404 for every (path, method) pair
outside the enumerated routes. -/
theorem C8_counterexample :
    route "POST" "/" = Route.health ∧ Route.health ≠ Route.notFound "/" :=
  ⟨rfl, by decide⟩

/-- C8 (amended): the dispatcher answers 404 exactly when the method is
not OPTIONS (OPTIONS is always a preflight), the path matches none of
the data routes (those match on path alone, for any method), and — if
the method is POST — the path is none of the five streaming routes. -/
theorem C8_route_amended (m p : String) :
    route m p = Route.notFound p ↔
      (m ≠ "OPTIONS" ∧ p ≠ "/" ∧ p ≠ "" ∧ p ≠ "/api/commodities" ∧
        p.startsWith "/api/commodities/" = false ∧ p ≠ "/api/district-profile" ∧
        p ≠ "/api/meal-patterns" ∧
        (m = "POST" →
          p ≠ "/api/stream/allocate" ∧ p ≠ "/api/stream/compliance" ∧
          p ≠ "/api/stream/budget" ∧ p ≠ "/api/stream/entitlement" ∧
          p ≠ "/api/stream/chat")) := by
  by_cases h1 : m = "OPTIONS"
  · simp [route, h1]
  · by_cases h2 : p = "/" ∨ p = ""
    · rcases h2 with h2 | h2 <;> subst h2 <;> simp [route, h1]
    · rw [not_or] at h2
      by_cases h3 : p = "/api/commodities"
      · subst h3
        simp [route, h1]
      · by_cases h4 : p.startsWith "/api/commodities/" = true
        · simp [route, h1, h2.1, h2.2, h3, h4]
        · have h4f : p.startsWith "/api/commodities/" = false := by simpa using h4
          by_cases h5 : p = "/api/district-profile"
          · subst h5
            simp [route, h1, h4f]
          · by_cases h6 : p = "/api/meal-patterns"
            · subst h6
              simp [route, h1, h4f]
            · by_cases h7 : m = "POST"
              · by_cases h8 : p = "/api/stream/allocate"
                · subst h8
                  simp [route, h1, h4f, h7]
                · by_cases h9 : p = "/api/stream/compliance"
                  · subst h9
                    simp [route, h1, h4f, h7]
                  · by_cases h10 : p = "/api/stream/budget"
                    · subst h10
                      simp [route, h1, h4f, h7]
                    · by_cases h11 : p = "/api/stream/entitlement"
                      · subst h11
                        simp [route, h1, h4f, h7]
                      · by_cases h12 : p = "/api/stream/chat"
                        · subst h12
                          simp [route, h1, h4f, h7]
                        · simp [route, h1, h2.1, h2.2, h3, h4f, h5, h6, h7, h8, h9,
                            h10, h11, h12]
              · simp [route, h1, h2.1, h2.2, h3, h4f, h5, h6, h7]

/-- Witness for C8 at a concrete unrouted pair. -/
theorem C8_route_amended_witness : route "DELETE" "/nope" = Route.notFound "/nope" :=
  (C8_route_amended "DELETE" "/nope").mpr
    (by refine ⟨by decide, by decide, by decide, by decide, by decide, by decide, by decide,
      fun h => by simp at h⟩)

/-- C9: prompt assembly is deterministic for every operation kind — two
invocations of the allocation, compliance, budget, entitlement or chat
handler on equal payloads and equal reference data produce equal
responses, in particular byte-identical prompt strings. -/
theorem C9_prompt_deterministic (comp : List J)
    (legacyDoc mealPatterns districtProfile d d' : J) (h : d = d') :
    handle_stream_allocate comp legacyDoc d = handle_stream_allocate comp legacyDoc d' ∧
      handle_stream_compliance mealPatterns d = handle_stream_compliance mealPatterns d' ∧
      handle_stream_budget districtProfile d = handle_stream_budget districtProfile d' ∧
      handle_stream_entitlement districtProfile d =
        handle_stream_entitlement districtProfile d' ∧
      handle_stream_chat d = handle_stream_chat d' := by
  subst h
  exact ⟨rfl, rfl, rfl, rfl, rfl⟩

/-- Witness for C9 at concrete inputs. -/
theorem C9_prompt_deterministic_witness :
    handle_stream_allocate [] (J.obj []) (J.obj []) =
        handle_stream_allocate [] (J.obj []) (J.obj []) ∧
      handle_stream_compliance (J.obj []) (J.obj []) =
        handle_stream_compliance (J.obj []) (J.obj []) ∧
      handle_stream_budget (J.obj []) (J.obj []) =
        handle_stream_budget (J.obj []) (J.obj []) ∧
      handle_stream_entitlement (J.obj []) (J.obj []) =
        handle_stream_entitlement (J.obj []) (J.obj []) ∧
      handle_stream_chat (J.obj []) = handle_stream_chat (J.obj []) :=
  C9_prompt_deterministic [] (J.obj []) (J.obj []) (J.obj []) (J.obj []) (J.obj []) rfl

/-- C10: when no requested item resolves against either source, the
allocation handler does not invoke the upstream model and returns the
SSE stream consisting of exactly one error event with data
"No valid commodities found". -/
theorem C10_empty_error_stream (comp : List J) (legacyDoc data : J)
    (h : buildItemsData comp (extract_all_commodities legacyDoc) (itemsOf data) = []) :
    handle_stream_allocate comp legacyDoc data =
      StreamResponse.errorStream [Event.error "No valid commodities found"] := by
  simp [handle_stream_allocate, h]

/-- Witness for C10 at a concrete unresolvable request. -/
theorem C10_empty_error_stream_witness :
    buildItemsData [] (extract_all_commodities (J.obj []))
        (itemsOf (J.obj [("items", J.arr [J.obj [("wbscm_id", J.str "QQ")]])])) = [] ∧
      handle_stream_allocate [] (J.obj [])
          (J.obj [("items", J.arr [J.obj [("wbscm_id", J.str "QQ")]])]) =
        StreamResponse.errorStream [Event.error "No valid commodities found"] :=
  ⟨rfl, C10_empty_error_stream [] (J.obj [])
    (J.obj [("items", J.arr [J.obj [("wbscm_id", J.str "QQ")]])]) rfl⟩

end ChefAnn
